import Mathlib

/-!
Verification development for the ORS route analyzer
(`src/route_analyzer.py`): a shallow embedding of its caching, retry,
scheduling and persistence layer, with theorems checking the spec.

Conventions of the embedding:
* Coordinates are modelled as pairs of integers in micro-degrees
  (the value in degrees times 10^6), so that the Python format
  `f"{x:.6f}"` is exact decimal printing of the scaled integer.
* Distances (floats in the source) are modelled as rationals.
* Machine 32-bit words in MD5 are `Nat` reduced modulo `2^32`.
* The external routing service is an oracle `Nat → ApiOutcome`
  giving the outcome of each attempt.
-/

namespace RouteAnalyzer

/-! ## MD5 (used by `_get_cache_key`, line 35 of the source) -/

/-- 32-bit truncation. -/
def w32 (n : Nat) : Nat := n % 4294967296

/-- 32-bit left rotation of a word `x < 2^32`. -/
def rotl (x n : Nat) : Nat := ((x <<< n) ||| (x >>> (32 - n))) % 4294967296

/-- Bitwise complement on 32-bit words. -/
def notw (x : Nat) : Nat := x ^^^ 4294967295

def md5F (b c d : Nat) : Nat := (b &&& c) ||| (notw b &&& d)

def md5G (b c d : Nat) : Nat := (d &&& b) ||| (notw d &&& c)

def md5H (b c d : Nat) : Nat := b ^^^ c ^^^ d

def md5I (b c d : Nat) : Nat := c ^^^ (b ||| notw d)

/-- The 64 MD5 sine-derived constants. -/
def md5K : List Nat :=
  [0xd76aa478, 0xe8c7b756, 0x242070db, 0xc1bdceee,
   0xf57c0faf, 0x4787c62a, 0xa8304613, 0xfd469501,
   0x698098d8, 0x8b44f7af, 0xffff5bb1, 0x895cd7be,
   0x6b901122, 0xfd987193, 0xa679438e, 0x49b40821,
   0xf61e2562, 0xc040b340, 0x265e5a51, 0xe9b6c7aa,
   0xd62f105d, 0x02441453, 0xd8a1e681, 0xe7d3fbc8,
   0x21e1cde6, 0xc33707d6, 0xf4d50d87, 0x455a14ed,
   0xa9e3e905, 0xfcefa3f8, 0x676f02d9, 0x8d2a4c8a,
   0xfffa3942, 0x8771f681, 0x6d9d6122, 0xfde5380c,
   0xa4beea44, 0x4bdecfa9, 0xf6bb4b60, 0xbebfbc70,
   0x289b7ec6, 0xeaa127fa, 0xd4ef3085, 0x04881d05,
   0xd9d4d039, 0xe6db99e5, 0x1fa27cf8, 0xc4ac5665,
   0xf4292244, 0x432aff97, 0xab9423a7, 0xfc93a039,
   0x655b59c3, 0x8f0ccc92, 0xffeff47d, 0x85845dd1,
   0x6fa87e4f, 0xfe2ce6e0, 0xa3014314, 0x4e0811a1,
   0xf7537e82, 0xbd3af235, 0x2ad7d2bb, 0xeb86d391]

/-- The 64 MD5 per-round shift amounts. -/
def md5S : List Nat :=
  [7, 12, 17, 22, 7, 12, 17, 22, 7, 12, 17, 22, 7, 12, 17, 22,
   5, 9, 14, 20, 5, 9, 14, 20, 5, 9, 14, 20, 5, 9, 14, 20,
   4, 11, 16, 23, 4, 11, 16, 23, 4, 11, 16, 23, 4, 11, 16, 23,
   6, 10, 15, 21, 6, 10, 15, 21, 6, 10, 15, 21, 6, 10, 15, 21]

/-- Little-endian byte decomposition, `k` bytes of `n`. -/
def leBytes (k n : Nat) : List Nat :=
  (List.range k).map (fun i => (n >>> (8 * i)) % 256)

/-- The `g`-th little-endian 32-bit word of a 64-byte chunk. -/
def chunkWord (chunk : List Nat) (g : Nat) : Nat :=
  chunk.getD (4 * g) 0 + chunk.getD (4 * g + 1) 0 * 256 +
    chunk.getD (4 * g + 2) 0 * 65536 + chunk.getD (4 * g + 3) 0 * 16777216

/-- One MD5 round: state `(a, b, c, d)`, round index `i`, message words `M`. -/
def md5Step (M : Nat → Nat) (st : Nat × Nat × Nat × Nat) (i : Nat) :
    Nat × Nat × Nat × Nat :=
  let a := st.1
  let b := st.2.1
  let c := st.2.2.1
  let d := st.2.2.2
  let fg : Nat × Nat :=
    if i < 16 then (md5F b c d, i)
    else if i < 32 then (md5G b c d, (5 * i + 1) % 16)
    else if i < 48 then (md5H b c d, (3 * i + 5) % 16)
    else (md5I b c d, (7 * i) % 16)
  let tmp := w32 (fg.1 + a + md5K.getD i 0 + M fg.2)
  (d, w32 (b + rotl tmp (md5S.getD i 0)), b, c)

/-- Process one 64-byte chunk, updating the running state. -/
def md5Chunk (st : Nat × Nat × Nat × Nat) (chunk : List Nat) :
    Nat × Nat × Nat × Nat :=
  let r := (List.range 64).foldl (md5Step (chunkWord chunk)) st
  (w32 (st.1 + r.1), w32 (st.2.1 + r.2.1),
   w32 (st.2.2.1 + r.2.2.1), w32 (st.2.2.2 + r.2.2.2))

/-- Split a byte list into 64-byte chunks (structural recursion on a fuel
bound so the kernel can evaluate it; `fuel = l.length` always suffices). -/
def toChunksFuel : Nat → List Nat → List (List Nat)
  | 0, _ => []
  | _, [] => []
  | fuel + 1, a :: l => (a :: l).take 64 :: toChunksFuel fuel ((a :: l).drop 64)

/-- Split a byte list into 64-byte chunks. -/
def toChunks (l : List Nat) : List (List Nat) := toChunksFuel l.length l

/-- MD5 padding: append `0x80`, zeros to 56 mod 64, then the 64-bit
little-endian bit length. -/
def md5Pad (msg : List Nat) : List Nat :=
  msg ++ [128] ++ List.replicate ((119 - msg.length % 64) % 64) 0 ++
    leBytes 8 (8 * msg.length)

/-- The 16-byte MD5 digest of a byte string. -/
def md5Bytes (msg : List Nat) : List Nat :=
  let st := (toChunks (md5Pad msg)).foldl md5Chunk
    (0x67452301, 0xefcdab89, 0x98badcfe, 0x10325476)
  leBytes 4 st.1 ++ leBytes 4 st.2.1 ++ leBytes 4 st.2.2.1 ++ leBytes 4 st.2.2.2

def hexDigit (n : Nat) : Char := "0123456789abcdef".toList.getD n '0'

def byteHex (b : Nat) : String := String.mk [hexDigit (b / 16), hexDigit (b % 16)]

/-- Lowercase hex digest, as Python `hashlib.md5(...).hexdigest()`. -/
def md5Hex (msg : List Nat) : String := String.join ((md5Bytes msg).map byteHex)

/-- UTF-8 bytes of a string; for the ASCII strings built by the key
derivation this is exactly the code points, as in Python `.encode()`. -/
def asciiBytes (s : String) : List Nat := s.toList.map Char.toNat

/-! ## Coordinate formatting and `_get_cache_key` (lines 32-35) -/

/-- A coordinate component in micro-degrees (degrees times 10^6). -/
abbrev Micro := Int

/-- Zero-pad a numeral to six digits. -/
def pad6 (n : Nat) : String :=
  String.mk (List.replicate (6 - (Nat.repr n).length) '0') ++ Nat.repr n

/-- Python `f"{x:.6f}"` on a value that is an exact multiple of 10^-6. -/
def fmt6 (x : Micro) : String :=
  (if x < 0 then "-" else "") ++ Nat.repr (x.natAbs / 1000000) ++ "." ++
    pad6 (x.natAbs % 1000000)

/-- The pair string of line 34:
`f"{coord1[0]:.6f},{coord1[1]:.6f}-{coord2[0]:.6f},{coord2[1]:.6f}"`. -/
def coordStr (coord1 coord2 : Micro × Micro) : String :=
  fmt6 coord1.1 ++ "," ++ fmt6 coord1.2 ++ "-" ++
    fmt6 coord2.1 ++ "," ++ fmt6 coord2.2

/-- `_get_cache_key` (lines 32-35): MD5 hexdigest of the pair string. -/
def _get_cache_key (coord1 coord2 : Micro × Micro) : String :=
  md5Hex (asciiBytes (coordStr coord1 coord2))

/-- Moscow, 55.755800 N 37.617300 E, in micro-degrees. -/
def ptA : Micro × Micro := (55755800, 37617300)

/-- Saint Petersburg, 59.934300 N 30.335100 E, in micro-degrees. -/
def ptB : Micro × Micro := (59934300, 30335100)

/-! ## Python `round(x, 2)` -/

/-- Round a rational to the nearest integer, ties to even, as Python
`round` does on exactly representable values. -/
def roundHalfEven (q : ℚ) : ℤ :=
  if q - ⌊q⌋ < 1 / 2 then ⌊q⌋
  else if q - ⌊q⌋ > 1 / 2 then ⌊q⌋ + 1
  else if ⌊q⌋ % 2 = 0 then ⌊q⌋ else ⌊q⌋ + 1

/-- Python `round(q, 2)`. -/
def pyRound2 (q : ℚ) : ℚ := (roundHalfEven (q * 100) : ℚ) / 100

/-! ## `get_distance_truck` (lines 60-116) -/

/-- Outcome of one attempt against the external routing service:
a successful response carrying the distance in metres, an `ApiError`
whose message contains "rate limit", an `ApiError` whose message
contains "could not find routable point", any other `ApiError`, or a
non-`ApiError` exception (raised by the call or the response parsing). -/
inductive ApiOutcome where
  | success (distM : ℚ)
  | rateLimit
  | noRoute
  | apiOther
  | unexpected
deriving DecidableEq

/-- Observable result of one `get_distance_truck` call: the returned
value, the number of external-service calls made, the `time.sleep`
durations in order, and the distance cache afterwards. -/
structure TruckRun where
  result : Option ℚ
  apiCalls : Nat
  sleeps : List Nat
  cache : List (String × ℚ)
deriving DecidableEq

/-- Dictionary lookup in the distance cache (`cache_key in distance_cache`
followed by `distance_cache[cache_key]`). -/
def cacheLookup (c : List (String × ℚ)) (k : String) : Option ℚ :=
  (c.find? (fun p => p.1 == k)).map Prod.snd

/-- The rate-limit backoff of line 101: `min(15, (attempt + 1) * 5)`. -/
def backoffWait (attempt : Nat) : Nat := min 15 ((attempt + 1) * 5)

/-- The attempt loop of lines 78-116. Arguments after the oracle and the
cache key: current attempt index, remaining attempts
(`max_attempts - attempt`), external calls made so far, sleeps so far,
current cache. -/
def truckLoop (oracle : Nat → ApiOutcome) (key : String) :
    Nat → Nat → Nat → List Nat → List (String × ℚ) → TruckRun
  | _, 0, calls, sleeps, cache => ⟨none, calls, sleeps, cache⟩
  | attempt, remaining + 1, calls, sleeps, cache =>
    match oracle attempt with
    | .success distM =>
      let distKm := pyRound2 (distM / 1000)
      ⟨some distKm, calls + 1, sleeps, (key, distKm) :: cache⟩
    | .rateLimit =>
      truckLoop oracle key (attempt + 1) remaining (calls + 1)
        (sleeps ++ [backoffWait attempt]) cache
    | .noRoute => ⟨none, calls + 1, sleeps, cache⟩
    | .apiOther => ⟨none, calls + 1, sleeps, cache⟩
    | .unexpected =>
      truckLoop oracle key (attempt + 1) remaining (calls + 1)
        (sleeps ++ [2]) cache

/-- `get_distance_truck` (lines 60-116): cache check, then the attempt
loop with `max_attempts` attempts. -/
def get_distance_truck (oracle : Nat → ApiOutcome)
    (coord1 coord2 : Micro × Micro) (cache : List (String × ℚ))
    (maxAttempts : Nat := 3) : TruckRun :=
  match cacheLookup cache (_get_cache_key coord1 coord2) with
  | some d => ⟨some d, 0, [], cache⟩
  | none =>
    truckLoop oracle (_get_cache_key coord1 coord2) 0 maxAttempts 0 [] cache

/-! ## `_load_cache` (lines 37-47) -/

/-- State of one cache file on disk: absent, present but not valid JSON,
or valid with the given entries. -/
inductive FileState (α : Type) where
  | absent
  | corrupt
  | valid (entries : α)

/-- A Python exception that escapes the embedded fragment. -/
inductive PyError where
  | nameError (missing : String)
  | jsonDecodeError
deriving DecidableEq

/-- The pair of in-memory caches (`distance_cache`, `route_cache`);
both are `{}` at process start (lines 29-30). -/
structure Caches where
  dist : List (String × ℚ)
  route : List (String × List (Micro × Micro))

/-- `_load_cache` (lines 37-47). Reads the distance file then the route
file inside one `try`; only `FileNotFoundError` is caught (line 46), a
JSON parse failure propagates. Returns the caches afterwards and whether
the not-found warning was printed. -/
def _load_cache (init : Caches)
    (distFile : FileState (List (String × ℚ)))
    (routeFile : FileState (List (String × List (Micro × Micro)))) :
    Except PyError (Caches × Bool) :=
  match distFile with
  | .absent => .ok (init, true)
  | .corrupt => .error .jsonDecodeError
  | .valid d =>
    match routeFile with
    | .absent => .ok ({ init with dist := d }, true)
    | .corrupt => .error .jsonDecodeError
    | .valid r => .ok (⟨d, r⟩, false)

/-! ## `create_route_map` (lines 252-310) -/

/-- Every name bound at module level in `route_analyzer.py`: the
imports (lines 7-22) and the module-level definitions. Python name
resolution for a global falls back to this set (the name at issue is
not a local of `create_route_map` and not a builtin either). -/
def moduleGlobals : List String :=
  ["folium", "openrouteservice", "pd", "itertools", "time", "warnings",
   "argparse", "os", "json", "hashlib", "ThreadPoolExecutor",
   "as_completed", "lru_cache", "Lock", "ApiError", "orskey", "points",
   "client", "cache_lock", "distance_cache", "route_cache",
   "_get_cache_key", "_load_cache", "_save_cache", "get_distance_truck",
   "_process_distance_pair", "build_distance_matrix",
   "_process_route_pair", "create_route_map"]

/-- Evaluating a global name: `NameError` when it is not bound. -/
def resolveGlobal (n : String) : Except PyError Unit :=
  if moduleGlobals.contains n then .ok () else .error (.nameError n)

/-- Milestones of a `create_route_map` run, in program order. -/
inductive MapBuildEvent where
  | cacheLoad
  | mapCreate
  | markerAdd
  | routeProcess
  | mapSave
deriving DecidableEq

/-- `create_route_map` (lines 252-310): `_load_cache()` (line 257), then
line 260 evaluates the global `compute_center_from_points`; if that
resolves, the remaining body (map creation, markers, route processing,
saving, lines 261-310) would run — summarised as events, since no run
reaches it. Returns the events that happened and how the call ended. -/
def create_route_map (init : Caches)
    (distFile : FileState (List (String × ℚ)))
    (routeFile : FileState (List (String × List (Micro × Micro)))) :
    List MapBuildEvent × Except PyError Unit :=
  match _load_cache init distFile routeFile with
  | .error e => ([], .error e)
  | .ok _ =>
    match resolveGlobal "compute_center_from_points" with
    | .error e => ([.cacheLoad], .error e)
    | .ok _ =>
      ([.cacheLoad, .mapCreate, .markerAdd, .routeProcess, .mapSave], .ok ())

/-! ## `build_distance_matrix`: matrix cells, scheduler (lines 140-162) -/

/-- A cell of the pandas distance matrix: `NaN` (unset or empty in the
loaded CSV), a string (the diagonal `"X"`, the `"-"` sentinel), or a
numeric distance. -/
inductive Cell where
  | na
  | str (s : String)
  | num (q : ℚ)
deriving DecidableEq

/-- The test of line 161:
`pd.isna(dist_df.iloc[i, j]) or dist_df.iloc[i, j] in ["-", ""]`. -/
def isUnresolved (c : Cell) : Bool :=
  match c with
  | .na => true
  | .str s => s == "-" || s == ""
  | .num _ => false

/-- The freshly created frame of lines 144-146: all `NaN`, diagonal
`"X"`. -/
def initial_dist_df : Nat → Nat → Cell :=
  fun i j => if i = j then .str "X" else .na

/-- The scheduling loop of lines 157-162: for `i in range(n)`, for
`j in range(i+1, n)`, queue `(i, j)` when the cell is unresolved. -/
def pairs_to_process (n : Nat) (cell : Nat → Nat → Cell) :
    List (Nat × Nat) :=
  (List.range n).flatMap (fun i =>
    ((List.range' (i + 1) (n - (i + 1))).filter
      (fun j => isUnresolved (cell i j))).map (fun j => (i, j)))

/-! ## `build_distance_matrix`: result application (lines 181-183) -/

/-- Lines 182-183: write one completed result into both mirror cells
(`dist_df.iloc[i, j] = result; dist_df.iloc[j, i] = result`). -/
def applyResult (m : Nat → Nat → Cell) (i j : Nat) (r : Cell) :
    Nat → Nat → Cell :=
  fun a b => if (a = i ∧ b = j) ∨ (a = j ∧ b = i) then r else m a b

/-- Fold every completed `(i, j, result)` into the matrix, in completion
order. -/
def applyResults (m : Nat → Nat → Cell) (rs : List (Nat × Nat × Cell)) :
    Nat → Nat → Cell :=
  rs.foldl (fun acc t => applyResult acc t.1 t.2.1 t.2.2) m

/-! ## Final artifact write (lines 204-215) -/

/-- The names the loop of lines 206-213 can try, in order: the canonical
name, then `distance_matrix_{i+1}.xlsx` after the i-th failure. -/
def xlsxCandidates : List String :=
  ["distance_matrix.xlsx", "distance_matrix_1.xlsx", "distance_matrix_2.xlsx",
   "distance_matrix_3.xlsx", "distance_matrix_4.xlsx"]

/-- The loop of lines 206-213. `locked f = true` means `to_excel(f)`
raises `PermissionError` (and writes nothing); otherwise the write
succeeds and the loop breaks. Returns the name saved under (if any) and
every name attempted, in order. -/
def commitFinalGo (locked : String → Bool) :
    Nat → Nat → String → List String → Option String × List String
  | 0, _, _, attempts => (none, attempts)
  | fuel + 1, i, outfile, attempts =>
    if locked outfile then
      commitFinalGo locked fuel (i + 1)
        ("distance_matrix_" ++ Nat.repr (i + 1) ++ ".xlsx")
        (attempts ++ [outfile])
    else (some outfile, attempts ++ [outfile])

/-- `for i in range(5)` over the excel write, starting from the
canonical name. -/
def commitFinal (locked : String → Bool) : Option String × List String :=
  commitFinalGo locked 5 0 "distance_matrix.xlsx" []

/-- Tail of `build_distance_matrix` (lines 204-215): the excel-write
loop runs, then the function returns `dist_df` unconditionally. -/
def buildFinalize (m : Nat → Nat → Cell) (locked : String → Bool) :
    (Nat → Nat → Cell) × Option String :=
  (m, (commitFinal locked).1)

set_option maxRecDepth 100000

/-- Sanity check of the MD5 embedding against the RFC 1321 test vector. -/
theorem md5_rfc1321_abc :
    md5Hex (asciiBytes "abc") = "900150983cd24fb0d6963f7d28e17f72" := by
  decide

/-- C1: the cache-key derivation is order sensitive — for the two
distinct points `ptA` and `ptB`, `_get_cache_key ptA ptB` differs from
`_get_cache_key ptB ptA`, so the canonical key property
`key(A,B) = key(B,A)` fails as a universal statement. -/
theorem cache_key_order_sensitive :
    ptA ≠ ptB ∧
    _get_cache_key ptA ptB ≠ _get_cache_key ptB ptA ∧
    ¬ (∀ a b : Micro × Micro, _get_cache_key a b = _get_cache_key b a) := by
  have h2 : _get_cache_key ptA ptB ≠ _get_cache_key ptB ptA := by decide
  exact ⟨by decide, h2, fun h => h2 (h ptA ptB)⟩

/-- C2: whenever the initial cache load returns normally,
`create_route_map` stops with a `NameError` for
`compute_center_from_points` (which is bound nowhere in the module),
and only the cache load has executed — no marker placement, route
processing or map saving. -/
theorem create_route_map_raises_name_error (init : Caches)
    (distFile : FileState (List (String × ℚ)))
    (routeFile : FileState (List (String × List (Micro × Micro))))
    (c : Caches × Bool) (h : _load_cache init distFile routeFile = .ok c) :
    create_route_map init distFile routeFile =
      ([MapBuildEvent.cacheLoad],
       .error (.nameError "compute_center_from_points")) := by
  unfold create_route_map
  rw [h]
  rfl

/-- Witness for C2: empty caches and no cache files on disk. -/
theorem create_route_map_raises_name_error_witness :
    create_route_map ⟨[], []⟩ .absent .absent =
      ([MapBuildEvent.cacheLoad],
       .error (.nameError "compute_center_from_points")) :=
  create_route_map_raises_name_error ⟨[], []⟩ .absent .absent
    (⟨[], []⟩, true) rfl

/-- C5 counterexample: with the distance-cache file present but
unparseable, `_load_cache` does not absorb the failure — the JSON
decode error escapes, so "never raises past `_load_cache`" is false. -/
theorem load_cache_corrupt_raises_counterexample :
    _load_cache ⟨[], []⟩ .corrupt .absent = .error .jsonDecodeError := rfl

/-- C5 (amended): a missing cache file yields the empty in-memory store
with a warning and no exception, but a present-but-unparseable cache
file raises the JSON parse error past `_load_cache` (only
`FileNotFoundError` is caught, in either file position). -/
theorem load_cache_missing_ok_corrupt_raises :
    (∀ routeFile, _load_cache ⟨[], []⟩ .absent routeFile =
      .ok (⟨[], []⟩, true)) ∧
    (∀ init routeFile, _load_cache init .corrupt routeFile =
      .error .jsonDecodeError) ∧
    (∀ init d, _load_cache init (.valid d) .corrupt =
      .error .jsonDecodeError) :=
  ⟨fun _ => rfl, fun _ _ => rfl, fun _ _ => rfl⟩

/-- C6: on a cache hit for the ordered pair key, `get_distance_truck`
returns the cached value with zero external-service calls, no sleeps,
and an unchanged cache. -/
theorem cache_hit_returns_immediately (oracle : Nat → ApiOutcome)
    (coord1 coord2 : Micro × Micro) (cache : List (String × ℚ)) (d : ℚ)
    (maxAttempts : Nat)
    (h : cacheLookup cache (_get_cache_key coord1 coord2) = some d) :
    get_distance_truck oracle coord1 coord2 cache maxAttempts =
      ⟨some d, 0, [], cache⟩ := by
  unfold get_distance_truck
  rw [h]

/-- Witness for C6: a cache holding the key for `(ptA, ptB)`. -/
theorem cache_hit_returns_immediately_witness :
    get_distance_truck (fun _ => .noRoute) ptA ptB
        [(_get_cache_key ptA ptB, 42)] 3 =
      ⟨some 42, 0, [], [(_get_cache_key ptA ptB, 42)]⟩ :=
  cache_hit_returns_immediately _ _ _ _ _ _ (by simp [cacheLookup])

/-- C7: on a cache miss whose first attempt succeeds with `d` metres,
`get_distance_truck` returns `round(d / 1000, 2)` kilometres after one
call, and that exact value sits in the cache under the pair key. -/
theorem success_rounds_and_caches (oracle : Nat → ApiOutcome)
    (coord1 coord2 : Micro × Micro) (cache : List (String × ℚ)) (d : ℚ)
    (k : Nat)
    (hmiss : cacheLookup cache (_get_cache_key coord1 coord2) = none)
    (hfirst : oracle 0 = .success d) :
    get_distance_truck oracle coord1 coord2 cache (k + 1) =
      ⟨some (pyRound2 (d / 1000)), 1, [],
       (_get_cache_key coord1 coord2, pyRound2 (d / 1000)) :: cache⟩ ∧
    cacheLookup
        ((_get_cache_key coord1 coord2, pyRound2 (d / 1000)) :: cache)
        (_get_cache_key coord1 coord2) = some (pyRound2 (d / 1000)) := by
  constructor
  · unfold get_distance_truck
    rw [hmiss]
    unfold truckLoop
    rw [hfirst]
  · simp [cacheLookup]

/-- Witness for C7: empty cache, first attempt returns 1234 m. -/
theorem success_rounds_and_caches_witness :
    get_distance_truck (fun _ => ApiOutcome.success 1234) ptA ptB [] 3 =
      ⟨some (pyRound2 (1234 / 1000)), 1, [],
       [(_get_cache_key ptA ptB, pyRound2 (1234 / 1000))]⟩ :=
  (success_rounds_and_caches _ ptA ptB [] 1234 2 rfl rfl).1

/-- Helper: when every attempt is rate limited, the loop exhausts its
remaining attempts, sleeping `backoffWait` once per attempt. -/
theorem truckLoop_all_rate_limited (oracle : Nat → ApiOutcome) (key : String)
    (h : ∀ j, oracle j = .rateLimit) :
    ∀ (r attempt calls : Nat) (sleeps : List Nat)
      (cache : List (String × ℚ)),
      truckLoop oracle key attempt r calls sleeps cache =
        ⟨none, calls + r,
         sleeps ++ (List.range' attempt r).map backoffWait, cache⟩ := by
  intro r
  induction r with
  | zero => intro attempt calls sleeps cache; simp [truckLoop]
  | succ n ih =>
    intro attempt calls sleeps cache
    rw [truckLoop, h attempt]
    rw [ih (attempt + 1) (calls + 1) (sleeps ++ [backoffWait attempt]) cache]
    simp [List.range'_succ]
    omega

/-- Helper: when every attempt raises a non-`ApiError` exception, the
loop exhausts its remaining attempts with a fixed 2-second sleep each. -/
theorem truckLoop_all_unexpected (oracle : Nat → ApiOutcome) (key : String)
    (h : ∀ j, oracle j = .unexpected) :
    ∀ (r attempt calls : Nat) (sleeps : List Nat)
      (cache : List (String × ℚ)),
      truckLoop oracle key attempt r calls sleeps cache =
        ⟨none, calls + r, sleeps ++ List.replicate r 2, cache⟩ := by
  intro r
  induction r with
  | zero => intro attempt calls sleeps cache; simp [truckLoop]
  | succ n ih =>
    intro attempt calls sleeps cache
    rw [truckLoop, h attempt]
    rw [ih (attempt + 1) (calls + 1) (sleeps ++ [2]) cache]
    simp [List.replicate_succ]
    omega

/-- C3: on a cache miss, a first-attempt no-route failure ends the call
after exactly one external attempt, returning `none` with no sleep;
all-rate-limited attempts are retried `max_attempts` times, the sleep
of attempt `k` is `backoffWait k = min 15 ((k + 1) * 5)`, which is
non-decreasing in `k` and capped at 15. -/
theorem retry_policy (oracle : Nat → ApiOutcome)
    (coord1 coord2 : Micro × Micro) (cache : List (String × ℚ)) (k : Nat)
    (hmiss : cacheLookup cache (_get_cache_key coord1 coord2) = none) :
    (oracle 0 = .noRoute →
      get_distance_truck oracle coord1 coord2 cache (k + 1) =
        ⟨none, 1, [], cache⟩) ∧
    ((∀ j, oracle j = .rateLimit) →
      ∀ maxAttempts, get_distance_truck oracle coord1 coord2 cache maxAttempts =
        ⟨none, maxAttempts, (List.range maxAttempts).map backoffWait, cache⟩) ∧
    (∀ i j, i ≤ j → backoffWait i ≤ backoffWait j) ∧
    (∀ i, backoffWait i ≤ 15) := by
  refine ⟨fun h0 => ?_, fun hall maxAttempts => ?_, fun i j hij => ?_, fun i => ?_⟩
  · unfold get_distance_truck
    rw [hmiss]
    unfold truckLoop
    rw [h0]
  · unfold get_distance_truck
    rw [hmiss]
    rw [truckLoop_all_rate_limited oracle _ hall maxAttempts 0 0 [] cache]
    simp [List.range_eq_range']
  · exact min_le_min (le_refl 15) (by omega)
  · exact min_le_left _ _

/-- Witness for C3: empty cache, every attempt rate limited, three
attempts, sleeps 5, 10, 15. -/
theorem retry_policy_witness :
    get_distance_truck (fun _ => ApiOutcome.rateLimit) ptA ptB [] 3 =
      ⟨none, 3, (List.range 3).map backoffWait, []⟩ :=
  (retry_policy (fun _ => .rateLimit) ptA ptB [] 2 rfl).2.1 (fun _ => rfl) 3

/-- C4 counterexample: an `ApiError` that is neither a rate limit nor a
no-route failure is *not* retried — with every attempt in that class the
call returns `None` after a single external attempt with no backoff
sleep, contradicting "triggers a fixed short backoff and another
attempt". -/
theorem api_other_returns_immediately_counterexample :
    get_distance_truck (fun _ => ApiOutcome.apiOther) ptA ptB [] 3 =
      ⟨none, 1, [], []⟩ := rfl

/-- C4 (amended): only non-`ApiError` unexpected exceptions are
retryable with the fixed 2-second backoff, up to `max_attempts`
attempts; an `ApiError` outside the rate-limit and no-route classes
returns `None` immediately after one attempt, with no retry. -/
theorem unexpected_retries_api_other_does_not (oracle1 oracle2 : Nat → ApiOutcome)
    (coord1 coord2 : Micro × Micro) (cache : List (String × ℚ))
    (maxAttempts k : Nat)
    (hmiss : cacheLookup cache (_get_cache_key coord1 coord2) = none)
    (h1 : ∀ j, oracle1 j = .unexpected) (h2 : oracle2 0 = .apiOther) :
    get_distance_truck oracle1 coord1 coord2 cache maxAttempts =
      ⟨none, maxAttempts, List.replicate maxAttempts 2, cache⟩ ∧
    get_distance_truck oracle2 coord1 coord2 cache (k + 1) =
      ⟨none, 1, [], cache⟩ := by
  constructor
  · unfold get_distance_truck
    rw [hmiss]
    rw [truckLoop_all_unexpected oracle1 _ h1 maxAttempts 0 0 [] cache]
    simp
  · unfold get_distance_truck
    rw [hmiss]
    unfold truckLoop
    rw [h2]

/-- Witness for C4 (amended): every attempt an unexpected exception,
three attempts, three 2-second sleeps. -/
theorem unexpected_retries_api_other_does_not_witness :
    get_distance_truck (fun _ => ApiOutcome.unexpected) ptA ptB [] 3 =
      ⟨none, 3, List.replicate 3 2, []⟩ :=
  (unexpected_retries_api_other_does_not (fun _ => .unexpected)
    (fun _ => .apiOther) ptA ptB [] 3 2 rfl (fun _ => rfl) rfl).1

/-- C8: the scheduler queues exactly the pairs `(i, j)` with `i < j < n`
whose cell is still unresolved — `NaN`, the `"-"` sentinel, or the empty
string; numeric cells (prior successes) are never queued, while `"-"`
cells (prior permanent failures) are. -/
theorem scheduler_enumerates_unresolved (n : Nat)
    (cell : Nat → Nat → Cell) :
    (∀ i j, (i, j) ∈ pairs_to_process n cell ↔
      (i < j ∧ j < n ∧ isUnresolved (cell i j) = true)) ∧
    (∀ q, isUnresolved (.num q) = false) ∧
    isUnresolved .na = true ∧
    isUnresolved (.str "-") = true ∧
    isUnresolved (.str "") = true := by
  refine ⟨fun i j => ?_, fun q => rfl, rfl, rfl, rfl⟩
  simp only [pairs_to_process, List.mem_flatMap, List.mem_map,
    List.mem_filter, List.mem_range, List.mem_range'_1, Prod.mk.injEq]
  constructor
  · rintro ⟨a, ha, b, ⟨⟨hb1, hb2⟩, hu⟩, rfl, rfl⟩
    exact ⟨by omega, by omega, hu⟩
  · rintro ⟨hij, hjn, hu⟩
    exact ⟨i, by omega, j, ⟨⟨by omega, by omega⟩, hu⟩, rfl, rfl⟩

/-- Helper: a mirror-pair write with `i ≠ j` leaves every diagonal cell
unchanged. -/
theorem applyResult_diag (m : Nat → Nat → Cell) (i j : Nat) (r : Cell)
    (hij : i ≠ j) (a : Nat) : applyResult m i j r a a = m a a := by
  unfold applyResult
  rw [if_neg]
  rintro (⟨rfl, rfl⟩ | ⟨rfl, rfl⟩) <;> exact hij rfl

/-- Helper: a mirror-pair write preserves symmetry of the matrix. -/
theorem applyResult_symm (m : Nat → Nat → Cell) (i j : Nat) (r : Cell)
    (hsymm : ∀ a b, m a b = m b a) (a b : Nat) :
    applyResult m i j r a b = applyResult m i j r b a := by
  unfold applyResult
  by_cases h : (a = i ∧ b = j) ∨ (a = j ∧ b = i)
  · rw [if_pos h, if_pos (by tauto)]
  · rw [if_neg h, if_neg (by tauto)]
    exact hsymm a b

/-- Helper: folding mirror-pair writes with `i ≠ j` keeps the diagonal
at `"X"`. -/
theorem applyResults_diag (rs : List (Nat × Nat × Cell)) :
    ∀ m : Nat → Nat → Cell, (∀ t ∈ rs, t.1 ≠ t.2.1) →
      (∀ i, m i i = Cell.str "X") →
      ∀ i, applyResults m rs i i = Cell.str "X" := by
  induction rs with
  | nil => intro m _ hdiag i; exact hdiag i
  | cons t ts ih =>
    intro m hne hdiag i
    have ht : t.1 ≠ t.2.1 := hne t (List.mem_cons_self t ts)
    have hstep : applyResults m (t :: ts) =
        applyResults (applyResult m t.1 t.2.1 t.2.2) ts := rfl
    rw [hstep]
    exact ih _ (fun s hs => hne s (List.mem_cons_of_mem t hs))
      (fun a => by rw [applyResult_diag _ _ _ _ ht]; exact hdiag a) i

/-- Helper: folding mirror-pair writes preserves matrix symmetry. -/
theorem applyResults_symm (rs : List (Nat × Nat × Cell)) :
    ∀ m : Nat → Nat → Cell, (∀ a b, m a b = m b a) →
      ∀ a b, applyResults m rs a b = applyResults m rs b a := by
  induction rs with
  | nil => intro m hs a b; exact hs a b
  | cons t ts ih =>
    intro m hs a b
    have hstep : applyResults m (t :: ts) =
        applyResults (applyResult m t.1 t.2.1 t.2.2) ts := rfl
    rw [hstep]
    exact ih _ (applyResult_symm m t.1 t.2.1 t.2.2 hs) a b

/-- C9: applying completed results (each written to both mirror cells
together, lines 182-183) to a matrix whose diagonal is `"X"` keeps the
diagonal `"X"`, preserves symmetry, and each single write puts the same
value in `(i, j)` and `(j, i)`. -/
theorem matrix_symmetric_diagonal_self (rs : List (Nat × Nat × Cell))
    (m : Nat → Nat → Cell)
    (hne : ∀ t ∈ rs, t.1 ≠ t.2.1)
    (hdiag : ∀ i, m i i = Cell.str "X") :
    (∀ i, applyResults m rs i i = Cell.str "X") ∧
    ((∀ i j, m i j = m j i) →
      ∀ i j, applyResults m rs i j = applyResults m rs j i) ∧
    (∀ (w : Nat → Nat → Cell) i j r,
      applyResult w i j r i j = r ∧ applyResult w i j r j i = r) := by
  refine ⟨applyResults_diag rs m hne hdiag,
    fun hsymm => applyResults_symm rs m hsymm,
    fun w i j r => ⟨?_, ?_⟩⟩
  · unfold applyResult
    rw [if_pos (Or.inl ⟨rfl, rfl⟩)]
  · unfold applyResult
    rw [if_pos (Or.inr ⟨rfl, rfl⟩)]

/-- Witness for C9: one completed result `(0, 1, 5 km)` applied to the
fresh frame keeps `"X"` on the diagonal. -/
theorem matrix_symmetric_diagonal_self_witness :
    applyResults initial_dist_df [(0, 1, Cell.num 5)] 0 0 = Cell.str "X" :=
  (matrix_symmetric_diagonal_self [(0, 1, Cell.num 5)] initial_dist_df
    (by decide) (fun i => by simp [initial_dist_df])).1 0

/-- C10: the final-artifact loop attempts an initial prefix of the
canonical name followed by `_1, _2, ...` variants, at most 5 names; a
write only lands on an unlocked name (every earlier attempted name was
locked, so nothing locked is overwritten); with every candidate locked
nothing is saved; and in all cases the run completes, returning the
matrix unchanged. -/
theorem final_artifact_lock_fallback (locked : String → Bool)
    (saved : Option String) (attempts : List String)
    (h : commitFinal locked = (saved, attempts)) :
    attempts = xlsxCandidates.take attempts.length ∧
    attempts.length ≤ 5 ∧
    (∀ f, saved = some f → locked f = false ∧ attempts.getLast? = some f) ∧
    (∀ f ∈ attempts.dropLast, locked f = true) ∧
    (saved = none → ∀ f ∈ xlsxCandidates, locked f = true) ∧
    (∀ m, buildFinalize m locked = (m, saved)) := by
  have hfin : ∀ m : Nat → Nat → Cell, buildFinalize m locked = (m, saved) := by
    intro m
    unfold buildFinalize
    rw [h]
  have e1 : "distance_matrix_" ++ Nat.repr 1 ++ ".xlsx" =
    "distance_matrix_1.xlsx" := rfl
  have e2 : "distance_matrix_" ++ Nat.repr 2 ++ ".xlsx" =
    "distance_matrix_2.xlsx" := rfl
  have e3 : "distance_matrix_" ++ Nat.repr 3 ++ ".xlsx" =
    "distance_matrix_3.xlsx" := rfl
  have e4 : "distance_matrix_" ++ Nat.repr 4 ++ ".xlsx" =
    "distance_matrix_4.xlsx" := rfl
  cases h0 : locked "distance_matrix.xlsx" <;>
    cases h1 : locked "distance_matrix_1.xlsx" <;>
    cases h2 : locked "distance_matrix_2.xlsx" <;>
    cases h3 : locked "distance_matrix_3.xlsx" <;>
    cases h4 : locked "distance_matrix_4.xlsx" <;>
    (simp [commitFinal, commitFinalGo, e1, e2, e3, e4, h0, h1, h2, h3, h4] at h;
     obtain ⟨h5, h6⟩ := h;
     subst h5; subst h6;
     refine ⟨by decide, by decide, fun f hf => ?_, ?_, fun hn => ?_, hfin⟩ <;>
       first
         | (injection hf with h7; subst h7; exact ⟨by assumption, by decide⟩)
         | simp at hf
         | (simp [xlsxCandidates, List.dropLast, List.forall_mem_cons,
              h0, h1, h2, h3, h4]; done)
         | simp at hn)

/-- Witness for C10: only the canonical name is locked; the write lands
on `distance_matrix_1.xlsx`, which is not locked. -/
theorem final_artifact_lock_fallback_witness :
    (fun s => s == "distance_matrix.xlsx") "distance_matrix_1.xlsx" = false ∧
    List.getLast? ["distance_matrix.xlsx", "distance_matrix_1.xlsx"] =
      some "distance_matrix_1.xlsx" :=
  (final_artifact_lock_fallback (fun s => s == "distance_matrix.xlsx")
    (some "distance_matrix_1.xlsx")
    ["distance_matrix.xlsx", "distance_matrix_1.xlsx"] (by decide)).2.2.1
    "distance_matrix_1.xlsx" rfl

end RouteAnalyzer
